import Mathlib

/-!
Verification development for the upload-validation and file-processing
pipeline of the aicon backend.

The Python sources embedded here are:
  * `src/backend/src/tasks/validators.py`   (file classification and validation)
  * `src/backend/src/tasks/file_processing.py` (processing pipeline, analyzer)
  * `src/backend/src/models/project.py`     (record model and its mutators)
  * `src/backend/src/services/project.py`   (service-layer record updates)

Bytes are `List Nat` (each element a byte value).  External collaborators
(libmagic MIME sniffing, the stdlib `zipfile` parser, `hashlib`) are modelled
as an oracle record `MagicEnv` passed explicitly: theorems quantify over it,
so they hold for every possible behaviour of those libraries.
-/

namespace Aicon

/-- The `SupportedFileType` enum of `models/project.py` (values
"txt"/"md"/"docx"/"epub").  The constructor order mirrors the insertion
order of the `FileValidator.SUPPORTED_TYPES` dict, which is the iteration
order of every detection loop. -/
inductive SupportedFileType where
  | TXT
  | MD
  | DOCX
  | EPUB
deriving DecidableEq, Repr

/-- Iteration order of the `SUPPORTED_TYPES` dict in `validators.py`
(Python dicts iterate in insertion order): TXT, MD, DOCX, EPUB. -/
def typeOrder : List SupportedFileType :=
  [SupportedFileType.TXT, SupportedFileType.MD,
   SupportedFileType.DOCX, SupportedFileType.EPUB]

/-- Configuration row of `FileValidator.SUPPORTED_TYPES` (validators.py:39-70). -/
structure TypeConfig where
  mime_types : List String
  extensions : List String
  max_size : Nat
  signatures : List (List Nat)
  description : String

/-- Embeds `FileValidator.SUPPORTED_TYPES` (validators.py:39-70).  Byte-string
signatures are spelled out: TXT has the single empty signature `b''`,
MD has `b'#'`, `b'*'`, `b'-'`, DOCX and EPUB both have the ZIP local-file
header `b'PK\x03\x04'`. -/
def SUPPORTED_TYPES : SupportedFileType → TypeConfig
  | SupportedFileType.TXT =>
      { mime_types := ["text/plain"]
        extensions := [".txt"]
        max_size := 50 * 1024 * 1024
        signatures := [[]]
        description := "纯文本文档" }
  | SupportedFileType.MD =>
      { mime_types := ["text/markdown", "text/plain"]
        extensions := [".md", ".markdown"]
        max_size := 50 * 1024 * 1024
        signatures := [[0x23], [0x2A], [0x2D]]
        description := "Markdown文档" }
  | SupportedFileType.DOCX =>
      { mime_types :=
          ["application/vnd.openxmlformats-officedocument.wordprocessingml.document"]
        extensions := [".docx"]
        max_size := 100 * 1024 * 1024
        signatures := [[0x50, 0x4B, 0x03, 0x04]]
        description := "Word文档" }
  | SupportedFileType.EPUB =>
      { mime_types := ["application/epub+zip"]
        extensions := [".epub"]
        max_size := 200 * 1024 * 1024
        signatures := [[0x50, 0x4B, 0x03, 0x04]]
        description := "EPUB电子书" }

/-- Embeds `FileValidator.DANGEROUS_EXTENSIONS` (validators.py:73-76). -/
def DANGEROUS_EXTENSIONS : List String :=
  [".exe", ".bat", ".cmd", ".com", ".pif", ".scr", ".vbs", ".js", ".jar",
   ".app", ".deb", ".pkg", ".dmg", ".rpm", ".msi", ".dll", ".so", ".dylib"]

/-- Embeds `FileValidator.DANGEROUS_MIME_TYPES` (validators.py:79-86). -/
def DANGEROUS_MIME_TYPES : List String :=
  ["application/x-executable",
   "application/x-msdownload",
   "application/x-msdos-program",
   "application/x-shellscript",
   "application/javascript",
   "application/x-java-archive"]

/-- Python `str(SupportedFileType.X)` for the `str`-based enum, as it appears
inside f-string error messages. -/
def typeStr : SupportedFileType → String
  | SupportedFileType.TXT => "SupportedFileType.TXT"
  | SupportedFileType.MD => "SupportedFileType.MD"
  | SupportedFileType.DOCX => "SupportedFileType.DOCX"
  | SupportedFileType.EPUB => "SupportedFileType.EPUB"

/-- Python `repr(SupportedFileType.X)` (used when a list of enum members is
formatted by an f-string): `<SupportedFileType.TXT: 'txt'>` and so on. -/
def typeRepr : SupportedFileType → String
  | SupportedFileType.TXT => "<SupportedFileType.TXT: 'txt'>"
  | SupportedFileType.MD => "<SupportedFileType.MD: 'md'>"
  | SupportedFileType.DOCX => "<SupportedFileType.DOCX: 'docx'>"
  | SupportedFileType.EPUB => "<SupportedFileType.EPUB: 'epub'>"

/-- Python `f"{detected_types}"`: the repr of a list of enum members. -/
def typeListRepr (l : List SupportedFileType) : String :=
  "[" ++ String.intercalate ", " (l.map typeRepr) ++ "]"

/-- The ambiguity warning appended at validators.py:461:
`f"检测到多种可能的文件类型: {detected_types}"`. -/
def multiTypeWarning (l : List SupportedFileType) : String :=
  "检测到多种可能的文件类型: " ++ typeListRepr l

/-- Typed value stored in a `ValidationResult.metadata` entry (the Python
code stores strings, ints and bools in this dict). -/
inductive MVal where
  | s (v : String)
  | n (v : Nat)
  | b (v : Bool)
deriving DecidableEq, Repr

/-- Embeds `ValidationResult` (validators.py:19-32).  `warnings`/`metadata` default
to empty, as `__post_init__` replaces `None` by `[]`/`{}`. -/
structure ValidationResult where
  is_valid : Bool
  file_type : Option SupportedFileType
  error_message : Option String := none
  warnings : List String := []
  metadata : List (String × MVal) := []
deriving DecidableEq, Repr

/-- Oracle for the external collaborators of the validator: libmagic
(`magic.Magic(mime=True).from_buffer`; `none` models the call raising, which
the code catches), the stdlib `zipfile` parser (`none` models `BadZipFile`),
and `hashlib.sha256(...).hexdigest()`.  All are deterministic functions of
the byte buffer, matching the libraries. -/
structure MagicEnv where
  sniff : List Nat → Option String
  parseZip : List Nat → Option (List (String × List Nat))
  sha256hex : List Nat → String

/-- ASCII lowering of one character, modelling `str.lower()` on the ASCII
range (all extensions and MIME strings compared by the code are ASCII). -/
def asciiLower (c : Char) : Char :=
  if 'A' ≤ c ∧ c ≤ 'Z' then Char.ofNat (c.toNat + 32) else c

/-- ASCII raising of one character, modelling `str.upper()` on ASCII. -/
def asciiUpper (c : Char) : Char :=
  if 'a' ≤ c ∧ c ≤ 'z' then Char.ofNat (c.toNat - 32) else c

def strLower (s : String) : String := String.mk (s.toList.map asciiLower)

def strUpper (s : String) : String := String.mk (s.toList.map asciiUpper)

/-- Index (from the left) of the last occurrence of `c`, if any. -/
def lastIndexOf (c : Char) (l : List Char) : Option Nat :=
  match l with
  | [] => none
  | x :: xs =>
      match lastIndexOf c xs with
      | some i => some (i + 1)
      | none => if x = c then some 0 else none

/-- The final path component, as `pathlib.PurePath(...).name`. -/
def pathName (filename : String) : String :=
  match (filename.toList.splitOn '/').getLast? with
  | some comp => String.mk comp
  | none => ""

/-- Embeds `pathlib.PurePath(filename).suffix`: the part of the final component from
its last dot, provided that dot is neither the first nor the last character
of the component; otherwise the empty string. -/
def pathSuffix (filename : String) : String :=
  let name := (pathName filename).toList
  match lastIndexOf '.' name with
  | some i => if 0 < i ∧ i < name.length - 1 then String.mk (name.drop i) else ""
  | none => ""

/-- Embeds `pathlib.PurePath(filename).stem`: the final component without
`pathSuffix`. -/
def pathStem (filename : String) : String :=
  let name := (pathName filename).toList
  match lastIndexOf '.' name with
  | some i => if 0 < i ∧ i < name.length - 1 then String.mk (name.take i) else String.mk name
  | none => String.mk name

/-- Embeds `FileValidator._is_valid_filename` (validators.py:817-835). -/
def is_valid_filename (filename : String) : Bool :=
  let illegal_chars : List Char := ['<', '>', ':', '"', '|', '?', '*', Char.ofNat 0]
  let reserved_names : List String :=
    ["CON", "PRN", "AUX", "NUL",
     "COM1", "COM2", "COM3", "COM4", "COM5", "COM6", "COM7", "COM8", "COM9",
     "LPT1", "LPT2", "LPT3", "LPT4", "LPT5", "LPT6", "LPT7", "LPT8", "LPT9"]
  if illegal_chars.any (fun c => filename.toList.contains c) then false
  else if 255 < filename.length then false
  else if reserved_names.contains (strUpper (pathStem filename)) then false
  else true

/-- Embeds `FileValidator._basic_uploaded_file_check` (validators.py:256-288). -/
def basic_uploaded_file_check (file_content : List Nat) (filename : String) :
    ValidationResult :=
  let file_size := file_content.length
  if file_size = 0 then
    { is_valid := false, file_type := none, error_message := some "文件内容为空" }
  else if ¬ is_valid_filename filename then
    { is_valid := false, file_type := none, error_message := some "文件名包含非法字符" }
  else
    { is_valid := true, file_type := none
      metadata := [("file_size", MVal.n file_size),
                   ("filename", MVal.s filename),
                   ("file_extension", MVal.s (strLower (pathSuffix filename)))] }

/-- Embeds `FileValidator._security_check_content` (validators.py:316-340).  A
`magic` failure (`env.sniff _ = none`) is caught and only logged, so the
check passes. -/
def security_check_content (env : MagicEnv) (file_content : List Nat)
    (filename : String) : ValidationResult :=
  let file_ext := strLower (pathSuffix filename)
  if DANGEROUS_EXTENSIONS.contains file_ext then
    { is_valid := false, file_type := none
      error_message := some ("危险文件类型: " ++ file_ext) }
  else
    match env.sniff file_content with
    | some mime_type =>
        if DANGEROUS_MIME_TYPES.contains mime_type then
          { is_valid := false, file_type := none
            error_message := some ("危险文件类型: " ++ mime_type) }
        else { is_valid := true, file_type := none }
    | none => { is_valid := true, file_type := none }

/-- Extension-based pass of `_detect_file_type_from_content`
(validators.py:427-430): scan the kinds in dict order, appending every kind
whose extension list contains the filename's suffix. -/
def extDetect (file_ext : String) : List SupportedFileType :=
  typeOrder.foldl
    (fun acc t =>
      if (SUPPORTED_TYPES t).extensions.contains file_ext then acc ++ [t] else acc)
    []

/-- Append `t` unless already detected (`if file_type not in detected_types`). -/
def addDetected (acc : List SupportedFileType) (t : SupportedFileType) :
    List SupportedFileType :=
  if t ∈ acc then acc else acc ++ [t]

/-- One kind's step of the MIME-based pass. -/
def mimeStep (m : String) (acc : List SupportedFileType) (t : SupportedFileType) :
    List SupportedFileType :=
  if (SUPPORTED_TYPES t).mime_types.contains m then addDetected acc t else acc

/-- MIME-based pass of `_detect_file_type_from_content`
(validators.py:432-442); skipped entirely when the sniff raised. -/
def mimeDetect (mime : Option String) (acc : List SupportedFileType) :
    List SupportedFileType :=
  match mime with
  | none => acc
  | some m => typeOrder.foldl (mimeStep m) acc

/-- One kind's step of the signature-based pass: scan the kind's signature
list, appending the kind when the header starts with a signature. -/
def sigStep (header : List Nat) (acc : List SupportedFileType)
    (t : SupportedFileType) : List SupportedFileType :=
  (SUPPORTED_TYPES t).signatures.foldl
    (fun acc sig => if sig.isPrefixOf header then addDetected acc t else acc)
    acc

/-- Signature-based pass of `_detect_file_type_from_content`
(validators.py:444-450): `header = file_content[:1024]`, then for each kind
in order and each of its signatures, append the kind if the header starts
with the signature.  Note TXT's signature is the empty byte string, which is
a prefix of every header. -/
def sigDetect (header : List Nat) (acc : List SupportedFileType) :
    List SupportedFileType :=
  typeOrder.foldl (sigStep header) acc

/-- The full `detected_types` list computed by
`_detect_file_type_from_content` for a given buffer and filename. -/
def detectedTypes (env : MagicEnv) (file_content : List Nat) (filename : String) :
    List SupportedFileType :=
  sigDetect (file_content.take 1024)
    (mimeDetect (env.sniff file_content) (extDetect (strLower (pathSuffix filename))))

/-- Embeds `FileValidator._detect_file_type_from_content` (validators.py:419-490).
On success the result carries the first detected kind, the description and
size-limit metadata, and — when more than one kind was detected — the
ambiguity warning.  The expected-type-mismatch and size-limit failures carry
the chosen kind but drop the warnings, as the source constructs fresh
`ValidationResult`s there. -/
def detect_file_type_from_content (env : MagicEnv) (file_content : List Nat)
    (filename : String) (expected_type : Option SupportedFileType) :
    ValidationResult :=
  let file_ext := strLower (pathSuffix filename)
  let mimeMeta : List (String × MVal) :=
    match env.sniff file_content with
    | some m => [("detected_mime_type", MVal.s m)]
    | none => []
  let detected := detectedTypes env file_content filename
  match detected with
  | [] =>
      { is_valid := false, file_type := none
        error_message := some ("不支持的文件类型: " ++ file_ext) }
  | final_type :: _ =>
      let warnings :=
        if 1 < detected.length then [multiTypeWarning detected] else []
      if h : expected_type.isSome ∧ expected_type ≠ some final_type then
        { is_valid := false, file_type := some final_type
          error_message := some ("文件类型不匹配，期望: " ++ typeStr (expected_type.get h.1)
            ++ ", 检测到: " ++ typeStr final_type) }
      else if (SUPPORTED_TYPES final_type).max_size < file_content.length then
        { is_valid := false, file_type := some final_type
          error_message := some ("文件大小超过限制，最大: "
            ++ toString (SUPPORTED_TYPES final_type).max_size
            ++ ", 当前: " ++ toString file_content.length) }
      else
        { is_valid := true, file_type := some final_type
          metadata := mimeMeta
            ++ [("file_type_description", MVal.s (SUPPORTED_TYPES final_type).description),
                ("max_size", MVal.n (SUPPORTED_TYPES final_type).max_size)]
          warnings := warnings }

/-- Is `b` a UTF-8 continuation byte (`0x80-0xBF`)? -/
def utf8Cont (b : Nat) : Bool := 0x80 ≤ b ∧ b ≤ 0xBF

/-- Strict UTF-8 decoding, as Python `bytes.decode("utf-8")`: rejects
overlong forms, surrogates and code points above U+10FFFF; `none` models
`UnicodeDecodeError`. -/
def utf8Decode : List Nat → Option (List Char)
  | [] => some []
  | b :: rest =>
    if b < 0x80 then
      (utf8Decode rest).map (fun cs => Char.ofNat b :: cs)
    else if 0xC2 ≤ b ∧ b ≤ 0xDF then
      match rest with
      | b1 :: r =>
          if utf8Cont b1 then
            (utf8Decode r).map (fun cs => Char.ofNat ((b - 0xC0) * 64 + (b1 - 0x80)) :: cs)
          else none
      | [] => none
    else if 0xE0 ≤ b ∧ b ≤ 0xEF then
      match rest with
      | b1 :: b2 :: r =>
          let okB1 : Bool :=
            if b = 0xE0 then 0xA0 ≤ b1 ∧ b1 ≤ 0xBF
            else if b = 0xED then 0x80 ≤ b1 ∧ b1 ≤ 0x9F
            else utf8Cont b1
          if okB1 ∧ utf8Cont b2 then
            (utf8Decode r).map (fun cs =>
              Char.ofNat ((b - 0xE0) * 4096 + (b1 - 0x80) * 64 + (b2 - 0x80)) :: cs)
          else none
      | _ => none
    else if 0xF0 ≤ b ∧ b ≤ 0xF4 then
      match rest with
      | b1 :: b2 :: b3 :: r =>
          let okB1 : Bool :=
            if b = 0xF0 then 0x90 ≤ b1 ∧ b1 ≤ 0xBF
            else if b = 0xF4 then 0x80 ≤ b1 ∧ b1 ≤ 0x8F
            else utf8Cont b1
          if okB1 ∧ utf8Cont b2 ∧ utf8Cont b3 then
            (utf8Decode r).map (fun cs =>
              Char.ofNat ((b - 0xF0) * 262144 + (b1 - 0x80) * 4096
                + (b2 - 0x80) * 64 + (b3 - 0x80)) :: cs)
          else none
      | _ => none
    else none

/-- Model of Python `bytes.decode("gbk")` (strict): a byte below 0x80 decodes
to the ASCII character with that code (in particular byte 0 decodes to NUL);
a lead byte in 0x81-0xFE followed by a trail byte in 0x40-0xFE other than
0x7F decodes to one double-byte character; anything else raises
(`none`).  The concrete CJK code point assigned to a double-byte pair is
immaterial to every property proved below — all that is used is that a
double-byte character is never NUL — so the model maps the pair
`(lead, trail)` to the code point `0x20000 + lead * 256 + trail`, which is a
valid scalar value and never zero. -/
def gbkDecode : List Nat → Option (List Char)
  | [] => some []
  | b :: rest =>
    if b < 0x80 then (gbkDecode rest).map (fun cs => Char.ofNat b :: cs)
    else if 0x81 ≤ b ∧ b ≤ 0xFE then
      match rest with
      | b1 :: r =>
          if 0x40 ≤ b1 ∧ b1 ≤ 0xFE ∧ b1 ≠ 0x7F then
            (gbkDecode r).map (fun cs => Char.ofNat (0x20000 + b * 256 + b1) :: cs)
          else none
      | [] => none
    else none

/-- Python whitespace (`str.strip()` / `\s` on the ASCII range): space, tab,
newline, carriage return, vertical tab, form feed. -/
def isPyWs (c : Char) : Bool :=
  c = ' ' ∨ c = '\t' ∨ c = '\n' ∨ c = '\x0d' ∨ c = Char.ofNat 11 ∨ c = Char.ofNat 12

/-- Python `str.strip()` on a character list. -/
def pyStrip (l : List Char) : List Char :=
  ((l.dropWhile isPyWs).reverse.dropWhile isPyWs).reverse

/-- Embeds `zip_file.namelist()` over the entry model. -/
def zipNames (z : List (String × List Nat)) : List String := z.map Prod.fst

/-- Embeds `zip_file.open(name)` followed by `.read()`: the content of the first
entry with that name. -/
def zipRead (z : List (String × List Nat)) (name : String) : Option (List Nat) :=
  (z.find? (fun e => e.fst = name)).map Prod.snd

/-- Embeds `FileValidator._validate_docx_content` (validators.py:599-637).
`env.parseZip _ = none` models `zipfile.BadZipFile`. -/
def validate_docx_content (env : MagicEnv) (file_content : List Nat)
    (metadata : List (String × MVal)) (warnings : List String) : ValidationResult :=
  match env.parseZip file_content with
  | none =>
      { is_valid := false, file_type := some SupportedFileType.DOCX
        error_message := some "无效的DOCX文件，无法解析ZIP格式" }
  | some z =>
      if ¬ (zipNames z).contains "[Content_Types].xml" then
        { is_valid := false, file_type := some SupportedFileType.DOCX
          error_message := some "无效的DOCX文件，缺少必要文件: [Content_Types].xml" }
      else if ¬ (zipNames z).contains "word/document.xml" then
        { is_valid := false, file_type := some SupportedFileType.DOCX
          error_message := some "无效的DOCX文件，缺少必要文件: word/document.xml" }
      else
        { is_valid := true, file_type := some SupportedFileType.DOCX
          metadata := metadata ++ [("zip_entries", MVal.n (zipNames z).length),
                                   ("is_valid_docx", MVal.b true)]
          warnings := warnings }

/-- Embeds `FileValidator._validate_epub_content` (validators.py:684-728).  Reading
the `mimetype` entry decodes it as UTF-8 and strips it; a decode failure is
caught by the function's generic `except Exception` and yields a validation
failure, while a stripped value different from `application/epub+zip` only
appends a warning. -/
def validate_epub_content (env : MagicEnv) (file_content : List Nat)
    (metadata : List (String × MVal)) (warnings : List String) : ValidationResult :=
  match env.parseZip file_content with
  | none =>
      { is_valid := false, file_type := some SupportedFileType.EPUB
        error_message := some "无效的EPUB文件，无法解析ZIP格式" }
  | some z =>
      if ¬ (zipNames z).contains "mimetype" then
        { is_valid := false, file_type := some SupportedFileType.EPUB
          error_message := some "无效的EPUB文件，缺少必要文件: mimetype" }
      else if ¬ (zipNames z).contains "META-INF/container.xml" then
        { is_valid := false, file_type := some SupportedFileType.EPUB
          error_message := some "无效的EPUB文件，缺少必要文件: META-INF/container.xml" }
      else
        match zipRead z "mimetype" with
        | none =>
            -- unreachable given the membership check above; models the
            -- generic `except Exception` wrapper
            { is_valid := false, file_type := some SupportedFileType.EPUB
              error_message := some "EPUB文件验证失败: KeyError" }
        | some mbytes =>
            match utf8Decode mbytes with
            | none =>
                -- `f.read().decode('utf-8')` raised `UnicodeDecodeError`,
                -- caught by `except Exception as e` (validators.py:716-721)
                { is_valid := false, file_type := some SupportedFileType.EPUB
                  error_message := some "EPUB文件验证失败: UnicodeDecodeError" }
            | some cs =>
                let mimetype_content := String.mk (pyStrip cs)
                let warnings :=
                  if mimetype_content ≠ "application/epub+zip" then
                    warnings ++ ["EPUB mimetype异常: " ++ mimetype_content]
                  else warnings
                { is_valid := true, file_type := some SupportedFileType.EPUB
                  metadata := metadata ++ [("zip_entries", MVal.n (zipNames z).length),
                                           ("is_valid_epub", MVal.b true)]
                  warnings := warnings }

/-- NUL character, `'\x00'`. -/
def nulChar : Char := Char.ofNat 0

/-- Embeds `FileValidator._validate_text_content` (validators.py:775-815): try
UTF-8, on `UnicodeDecodeError` retry GBK with a warning, fail if both
decodes fail.  The binary-content check (`'\x00' in content`) is performed
only in the UTF-8 branch.  On success the result's `file_type` is TXT even
when the caller classified the file as MD, mirroring validators.py:812. -/
def validate_text_content (file_content : List Nat)
    (metadata : List (String × MVal)) (warnings : List String) : ValidationResult :=
  match utf8Decode file_content with
  | some cs =>
      let metadata := metadata ++ [("encoding", MVal.s "utf-8"),
                                   ("content_length", MVal.n cs.length)]
      if cs.contains nulChar then
        { is_valid := true, file_type := some SupportedFileType.TXT
          metadata := metadata ++ [("has_binary_content", MVal.b true)]
          warnings := warnings ++ ["文件可能包含二进制内容"] }
      else
        { is_valid := true, file_type := some SupportedFileType.TXT
          metadata := metadata ++ [("has_binary_content", MVal.b false)]
          warnings := warnings }
  | none =>
      match gbkDecode file_content with
      | some cs =>
          { is_valid := true, file_type := some SupportedFileType.TXT
            metadata := metadata ++ [("encoding", MVal.s "gbk"),
                                     ("content_length", MVal.n cs.length)]
            warnings := warnings ++ ["文件使用了GBK编码"] }
      | none =>
          { is_valid := false, file_type := none
            error_message := some "无法解码文件内容，可能不是有效的文本文件" }

/-- Embeds `FileValidator._validate_file_content_bytes` (validators.py:527-558):
record the SHA-256 hash, then dispatch on the detected kind.  The `file_type`
argument is the (optional) `file_type` field of the type-check result; a
`none` falls through to the final generic success, mirroring the Python
`if`-chain matching nothing. -/
def validate_file_content_bytes (env : MagicEnv) (file_content : List Nat)
    (file_type : Option SupportedFileType) : ValidationResult :=
  let metadata : List (String × MVal) :=
    [("file_hash", MVal.s (env.sha256hex file_content))]
  match file_type with
  | some SupportedFileType.DOCX => validate_docx_content env file_content metadata []
  | some SupportedFileType.EPUB => validate_epub_content env file_content metadata []
  | some SupportedFileType.TXT => validate_text_content file_content metadata []
  | some SupportedFileType.MD => validate_text_content file_content metadata []
  | none =>
      { is_valid := true, file_type := none, metadata := metadata }

/-- Embeds `FileValidator.validate_uploaded_file` (validators.py:155-219): the
public entry point — empty check, basic check, security check, type
detection, per-kind content validation, then the merged success result. -/
def validate_uploaded_file (env : MagicEnv) (file_content : List Nat)
    (filename : String) (expected_type : Option SupportedFileType) :
    ValidationResult :=
  if file_content.length = 0 then
    { is_valid := false, file_type := none, error_message := some "文件内容为空" }
  else
    let basic_check := basic_uploaded_file_check file_content filename
    if ¬ basic_check.is_valid then basic_check
    else
      let security_check := security_check_content env file_content filename
      if ¬ security_check.is_valid then security_check
      else
        let type_check := detect_file_type_from_content env file_content filename expected_type
        if ¬ type_check.is_valid then type_check
        else
          let content_check := validate_file_content_bytes env file_content type_check.file_type
          if ¬ content_check.is_valid then content_check
          else
            { is_valid := true
              file_type := type_check.file_type
              metadata := basic_check.metadata ++ type_check.metadata ++ content_check.metadata
              warnings := basic_check.warnings ++ type_check.warnings ++ content_check.warnings }

/-! ## Content analyzer (`file_processing.py:419-463`) -/

/-- The dict returned by `_analyze_file_content`. -/
structure AnalysisResult where
  word_count : Nat
  paragraph_count : Nat
  sentence_count : Nat
  character_count : Nat
  chapter_count : Nat
deriving DecidableEq, Repr

/-- Number of maximal whitespace-free runs: `len(content.split())`. -/
def wordCountAux : List Char → Bool → Nat
  | [], _ => 0
  | c :: rest, inWord =>
      if isPyWs c then wordCountAux rest false
      else (if inWord then 0 else 1) + wordCountAux rest true

/-- Python `content.split('\n\n')` on a character list: greedy left-to-right
split on the exact two-character separator, keeping empty pieces. -/
def splitBB : List Char → List Char → List (List Char)
  | [], acc => [acc.reverse]
  | c :: rest, acc =>
      if c = '\n' ∧ rest.head? = some '\n' then
        acc.reverse :: splitBB rest.tail []
      else
        splitBB rest (c :: acc)
termination_by l _ => l.length
decreasing_by
  · simp [List.length_tail]; omega
  · simp

/-- A sentence terminator of the regex `[.!?。！？]+` (file_processing.py:440). -/
def isSentTerm (c : Char) : Bool :=
  c = '.' ∨ c = '!' ∨ c = '?' ∨ c = '。' ∨ c = '！' ∨ c = '？'

/-- Embeds `re.split(r'[.!?。！？]+', content)`: split on maximal terminator runs,
keeping empty pieces at the ends. -/
def splitSent : List Char → List Char → List (List Char)
  | [], acc => [acc.reverse]
  | c :: rest, acc =>
      if isSentTerm c then acc.reverse :: splitSent (rest.dropWhile isSentTerm) []
      else splitSent rest (c :: acc)
termination_by l _ => l.length
decreasing_by
  · have h := (List.dropWhile_sublist (l := rest) (p := isSentTerm)).length_le
    simp; omega
  · simp

/-- One line matches `re` pattern `^#{1,6}\s+.+$` (with `MULTILINE`, a line
contains no newline): between one and six leading `#`, then at least one
whitespace character, then at least one further character of any kind. -/
def matchesHeading (line : List Char) : Bool :=
  let k := (line.takeWhile (fun c => c = '#')).length
  if 1 ≤ k ∧ k ≤ 6 then
    match line.drop k with
    | c :: rest => isPyWs c ∧ rest ≠ []
    | [] => false
  else false

/-- Embeds `_count_markdown_chapters` (file_processing.py:458-463): the number of
ATX-heading lines. -/
def count_markdown_chapters (content : List Char) : Nat :=
  (content.splitOn '\n').countP matchesHeading

/-- Embeds `_analyze_file_content` (file_processing.py:419-455), on decoded text. -/
def analyze_file_content (content : List Char)
    (file_type : Option SupportedFileType) : AnalysisResult :=
  if content = [] then
    { word_count := 0, paragraph_count := 0, sentence_count := 0
      character_count := 0, chapter_count := 0 }
  else
    { word_count := wordCountAux content false
      paragraph_count := (splitBB content []).countP (fun p => !(pyStrip p).isEmpty)
      sentence_count := (splitSent content []).countP (fun s => !(pyStrip s).isEmpty)
      character_count := content.length
      chapter_count :=
        if file_type = some SupportedFileType.MD then count_markdown_chapters content
        else 0 }

/-! ## Record model and processing pipeline
(`models/project.py`, `services/project.py`, `file_processing.py`) -/

/-- Embeds `ProjectStatus` values (models/project.py:14-20); the model stores them
as strings via `.value`. -/
def ProjectStatus.DRAFT : String := "draft"
def ProjectStatus.PROCESSING : String := "processing"
def ProjectStatus.COMPLETED : String := "completed"
def ProjectStatus.FAILED : String := "failed"
def ProjectStatus.ARCHIVED : String := "archived"

/-- Embeds `FileProcessingStatus` values (models/project.py:23-30). -/
def FileProcessingStatus.PENDING : String := "pending"
def FileProcessingStatus.UPLOADING : String := "uploading"
def FileProcessingStatus.UPLOADED : String := "uploaded"
def FileProcessingStatus.PROCESSING : String := "processing"
def FileProcessingStatus.COMPLETED : String := "completed"
def FileProcessingStatus.FAILED : String := "failed"

/-- The fields of the `Project` model (models/project.py:41-91) read or
written by the processing pipeline and its status mutators.  The float
column `processing_progress` is modelled as a rational. -/
structure Project where
  status : String
  file_processing_status : String
  processing_progress : ℚ
  processing_error : Option String
  word_count : Nat
  total_paragraphs : Nat
  total_sentences : Nat
  total_chapters : Nat
  file_type : Option String
deriving DecidableEq, Repr

/-- Embeds `Project.update_processing_progress` (models/project.py:130-132):
`self.processing_progress = max(0.0, min(100.0, progress))`. -/
def Project.update_processing_progress (p : Project) (progress : ℚ) : Project :=
  { p with processing_progress := max 0 (min 100 progress) }

/-- Embeds `Project.mark_as_failed` (models/project.py:134-139). -/
def Project.mark_as_failed (p : Project) (error_message : String) : Project :=
  ({ p with status := ProjectStatus.FAILED
            file_processing_status := FileProcessingStatus.FAILED
            processing_error := some error_message }).update_processing_progress 0

/-- Embeds `Project.mark_as_completed` (models/project.py:141-146). -/
def Project.mark_as_completed (p : Project) : Project :=
  { ({ p with status := ProjectStatus.COMPLETED
              file_processing_status := FileProcessingStatus.COMPLETED
     }).update_processing_progress 100
    with processing_error := none }

/-- Embeds `ProjectService.update_processing_status` (services/project.py:256-304)
acting on the stored record (`db = none` models a missing project id, which
returns `False` without writing).  `error_message` is applied only when
truthy (`if error_message:`), i.e. non-`None` and non-empty.  The `task_id`
keyword the pipeline passes lands in `**extra_updates` and is dropped
because `hasattr(project, 'task_id')` is false for this model. -/
def update_processing_status (db : Option Project) (status : String)
    (progress : Option ℚ) (error_message : Option String) :
    Option Project × Bool :=
  match db with
  | none => (none, false)
  | some project =>
      let project := { project with file_processing_status := status }
      let project :=
        match progress with
        | some pr => project.update_processing_progress pr
        | none => project
      let project :=
        match error_message with
        | some e => if e ≠ "" then { project with processing_error := some e } else project
        | none => project
      (some project, true)

/-- The update fields of `ProjectService.update_project` used by the
pipeline (services/project.py:215-254). -/
structure ProjectUpdates where
  word_count : Option Nat := none
  total_paragraphs : Option Nat := none
  total_sentences : Option Nat := none
  total_chapters : Option Nat := none
  processing_progress : Option ℚ := none

/-- The `setattr` loop of `ProjectService.update_project`
(services/project.py:239-241): each supplied field is assigned directly —
in particular `processing_progress` is written without any clamping. -/
def applyUpdates (p : Project) (u : ProjectUpdates) : Project :=
  let p := match u.word_count with | some v => { p with word_count := v } | none => p
  let p := match u.total_paragraphs with | some v => { p with total_paragraphs := v } | none => p
  let p := match u.total_sentences with | some v => { p with total_sentences := v } | none => p
  let p := match u.total_chapters with | some v => { p with total_chapters := v } | none => p
  let p := match u.processing_progress with | some v => { p with processing_progress := v } | none => p
  p

/-- Embeds `ProjectService.update_project` (services/project.py:215-254): raises
`ProjectServiceError` when the project is missing, otherwise applies the
updates directly. -/
def update_project (db : Option Project) (u : ProjectUpdates) :
    Except String (Option Project) :=
  match db with
  | none => Except.error "项目不存在或无权限"
  | some p => Except.ok (some (applyUpdates p u))

/-- Python exceptions surfacing in the pipeline. -/
inductive PyExc where
  | typeError (msg : String)
  | nameError (msg : String)
  | valueError (msg : String)
  | storageError (msg : String)
deriving DecidableEq, Repr

/-- The call at file_processing.py:116-120,

    await project_service.update_processing_status(
        project_id=project_id, progress=50.0, task_id=task_id)

`ProjectService.update_processing_status` (services/project.py:256-263)
declares `status: FileProcessingStatus` as a required parameter with no
default; this call binds only `project_id`, `progress` and the `task_id`
keyword, so Python raises `TypeError` at the call site, before the service
body runs. -/
def progress50Call : Except PyExc Unit :=
  Except.error (PyExc.typeError
    "update_processing_status() missing 1 required positional argument: 'status'")

/-- The error handler `_update_error_status` (file_processing.py:167-179)
references the name `ProjectService`.  That name is bound neither in the
handler, nor in the enclosing `process_uploaded_file` scope, nor at module
level (the module-level import at file_processing.py:22 is commented out,
and the `from src.services.project import ProjectService` at
file_processing.py:92 is local to the distinct nested function
`_process_file`).  Evaluating the handler therefore raises `NameError`,
which the `except Exception as db_error` at file_processing.py:183-184
swallows after logging — so the record is never transitioned to `failed`. -/
def updateErrorStatusCall : Except PyExc Unit :=
  Except.error (PyExc.nameError "name 'ProjectService' is not defined")

/-- The Celery task `process_uploaded_file` (file_processing.py:75-197)
acting on one record: `db` is the stored record (`none` models a missing or
soft-deleted project id), `fetch` the outcome of `_get_file_content`
(file_processing.py:405-416).  Returns the stored record after the call and
the `success` flag of the returned dict.

The body transitions the record to `processing` with progress 10
(file_processing.py:105-110) and obtains the content; the progress-50 update
of file_processing.py:116-120 then raises `TypeError` (see
`progress50Call`), so the analysis, count-persisting and completion steps of
lines 122-157 are unreachable.  Every exception lands in the handler of
lines 162-197, whose own status update fails by `NameError` (see
`updateErrorStatusCall`) and is swallowed, leaving the stored record
unchanged from its last checkpoint. -/
def process_uploaded_file (db : Option Project) (fetch : Except PyExc String) :
    Option Project × Bool :=
  match db with
  | none =>
      -- `raise ValueError(f"项目不存在: {project_id}")` at
      -- file_processing.py:102, then the swallowed failure handler
      (db, false)
  | some _ =>
      let db1 :=
        (update_processing_status db FileProcessingStatus.PROCESSING (some 10) none).1
      match fetch with
      | Except.error _e =>
          -- the fetch exception propagates out of `_process_file`; the
          -- handler's own update fails by NameError and is swallowed
          (db1, false)
      | Except.ok _content =>
          match progress50Call with
          | Except.error _e => (db1, false)
          | Except.ok _ =>
              -- unreachable: `progress50Call` is an error by definition
              (db1, false)

/-! ## Concrete fixtures used by the closed statements below -/

/-- Concrete record used by closed statements below. -/
def p0 : Project :=
  { status := ProjectStatus.DRAFT
    file_processing_status := FileProcessingStatus.UPLOADED
    processing_progress := 0
    processing_error := none
    word_count := 0
    total_paragraphs := 0
    total_sentences := 0
    total_chapters := 0
    file_type := some "txt" }

/-- A segment contains no blank line: no two consecutive newline characters. -/
def noBB : List Char → Bool
  | [] => true
  | [_] => true
  | a :: b :: r => (¬ (a = '\n' ∧ b = '\n')) ∧ noBB (b :: r)

/-- Text made of the given segments delimited by blank lines (each delimiter
being exactly two consecutive newlines). -/
def interBB : List (List Char) → List Char
  | [] => []
  | [s] => s
  | s :: rest => s ++ '\n' :: '\n' :: interBB rest

/-- Modelled from the spec: "the first in a fixed enumeration order
{TXT, MD, DOCX, EPUB} is chosen as authoritative" — the first kind in
enumeration order that belongs to the candidate set.  Used only to compare
the spec's tie-break rule against the code's. -/
def specEnumFirst (candidates : List SupportedFileType) : Option SupportedFileType :=
  (typeOrder.filter (fun t => candidates.contains t)).head?

/-- Oracle with libmagic reporting the Markdown MIME type. -/
def envMd : MagicEnv :=
  { sniff := fun _ => some "text/markdown"
    parseZip := fun _ => none
    sha256hex := fun _ => "" }

/-- Oracle with libmagic reporting the DOCX MIME type. -/
def envDocx : MagicEnv :=
  { sniff := fun _ =>
      some "application/vnd.openxmlformats-officedocument.wordprocessingml.document"
    parseZip := fun _ => none
    sha256hex := fun _ => "" }

/-- Oracle with libmagic reporting plain text. -/
def envPlain : MagicEnv :=
  { sniff := fun _ => some "text/plain"
    parseZip := fun _ => none
    sha256hex := fun _ => "" }

/-- ZIP with `[Content_Types].xml` but no `word/document.xml`. -/
def zDocxMiss : List (String × List Nat) :=
  [("[Content_Types].xml", []), ("word/other.xml", [])]

/-- Oracle whose ZIP parser yields `zDocxMiss`. -/
def envDocxMiss : MagicEnv :=
  { sniff := fun _ => none, parseZip := fun _ => some zDocxMiss, sha256hex := fun _ => "" }

/-- EPUB ZIP whose `mimetype` entry decodes to `application/xhtml`. -/
def zEpubWarn : List (String × List Nat) :=
  [("mimetype", "application/xhtml".toList.map Char.toNat),
   ("META-INF/container.xml", [])]

/-- Oracle whose ZIP parser yields `zEpubWarn`. -/
def envEpubWarn : MagicEnv :=
  { sniff := fun _ => none, parseZip := fun _ => some zEpubWarn, sha256hex := fun _ => "" }

/-- EPUB ZIP whose `mimetype` entry is `"application/epub+zip\n"` — content
that differs from `application/epub+zip` as stored. -/
def zEpubNL : List (String × List Nat) :=
  [("mimetype", "application/epub+zip\n".toList.map Char.toNat),
   ("META-INF/container.xml", [])]

/-- Oracle whose ZIP parser yields `zEpubNL`. -/
def envEpubNL : MagicEnv :=
  { sniff := fun _ => none, parseZip := fun _ => some zEpubNL, sha256hex := fun _ => "" }

/-! ## Claims about the record model and the processing pipeline -/

/-- C10: `Project.mark_as_failed` sets `status = failed` and
`file_processing_status = failed` together, stores the message in
`processing_error`, and resets `processing_progress` to 0. -/
theorem C10_mark_as_failed (p : Project) (msg : String) :
    (p.mark_as_failed msg).status = ProjectStatus.FAILED
    ∧ (p.mark_as_failed msg).file_processing_status = FileProcessingStatus.FAILED
    ∧ (p.mark_as_failed msg).processing_error = some msg
    ∧ (p.mark_as_failed msg).processing_progress = 0 := by
  refine ⟨rfl, rfl, rfl, ?_⟩
  simp [Project.mark_as_failed, Project.update_processing_progress]

/-- C8 (amended): progress writes that go through
`Project.update_processing_progress` — those of `update_processing_status`,
`mark_as_failed` and `mark_as_completed` — are clamped into `[0, 100]`,
but `update_project` assigns the supplied value directly, with no clamp. -/
theorem C8_progress_clamping :
    (∀ (p : Project) (pr : ℚ),
        0 ≤ (p.update_processing_progress pr).processing_progress
        ∧ (p.update_processing_progress pr).processing_progress ≤ 100)
    ∧ (∀ (p : Project) (st : String) (pr : ℚ) (em : Option String) (q : Project),
        (update_processing_status (some p) st (some pr) em).1 = some q →
        0 ≤ q.processing_progress ∧ q.processing_progress ≤ 100)
    ∧ (∀ (p : Project) (m : String), (p.mark_as_failed m).processing_progress = 0)
    ∧ (∀ p : Project, p.mark_as_completed.processing_progress = 100)
    ∧ (∀ (p : Project) (u : ProjectUpdates) (v : ℚ),
        u.processing_progress = some v → (applyUpdates p u).processing_progress = v) := by
  have hclamp : ∀ (p : Project) (pr : ℚ),
      0 ≤ (p.update_processing_progress pr).processing_progress
      ∧ (p.update_processing_progress pr).processing_progress ≤ 100 := by
    intro p pr
    constructor
    · exact le_max_left 0 _
    · exact max_le (by norm_num) (min_le_left 100 pr)
  refine ⟨hclamp, ?_, ?_, ?_, ?_⟩
  · intro p st pr em q hq
    have hgoal : ∀ r : Project,
        r.processing_progress = max 0 (min 100 pr) →
        0 ≤ r.processing_progress ∧ r.processing_progress ≤ 100 := by
      intro r hr
      rw [hr]
      exact ⟨le_max_left 0 _, max_le (by norm_num) (min_le_left 100 pr)⟩
    cases em with
    | none =>
        simp only [update_processing_status, Option.some.injEq] at hq
        exact hgoal q (by rw [← hq]; rfl)
    | some e =>
        by_cases he : e = ""
        · simp only [update_processing_status, he, ne_eq, not_true_eq_false, if_false,
            Option.some.injEq] at hq
          exact hgoal q (by rw [← hq]; rfl)
        · simp only [update_processing_status, he, ne_eq, not_false_eq_true, if_true,
            Option.some.injEq] at hq
          exact hgoal q (by rw [← hq]; rfl)
  · intro p m
    simp [Project.mark_as_failed, Project.update_processing_progress]
  · intro p
    simp [Project.mark_as_completed, Project.update_processing_progress]
  · intro p u v hv
    simp [applyUpdates, hv]

/-- Witness for `C8_progress_clamping` at concrete inputs. -/
theorem C8_progress_clamping_witness :
    (0 ≤ (p0.update_processing_progress 150).processing_progress
      ∧ (p0.update_processing_progress 150).processing_progress ≤ 100)
    ∧ (applyUpdates p0 { processing_progress := some 7 }).processing_progress = 7 :=
  ⟨C8_progress_clamping.1 p0 150,
   C8_progress_clamping.2.2.2.2 p0 { processing_progress := some 7 } 7 rfl⟩

/-- Counterexample to C8 as stated: a progress write performed through
`update_project` stores the raw value — here 150, outside `[0, 100]`. -/
theorem C8_counterexample :
    update_project (some p0) { processing_progress := some 150 } =
      Except.ok (some { p0 with processing_progress := 150 })
    ∧ ¬ ((150 : ℚ) ≤ 100) := by
  refine ⟨rfl, by norm_num⟩

/-- C6 (code bug): even when the record exists and the content fetch
succeeds, `process_uploaded_file` leaves the record in
`file_processing_status = processing` with progress 10 and returns failure —
the `completed`/progress-100 state of the claim is unreachable, because the
progress-50 update at file_processing.py:116-120 omits the required `status`
argument and raises `TypeError` (and the failure handler's own write dies by
`NameError`). -/
theorem C6_success_path_never_completes (p : Project) (content : String) :
    process_uploaded_file (some p) (Except.ok content) =
      (some { p with file_processing_status := FileProcessingStatus.PROCESSING
                     processing_progress := 10 }, false)
    ∧ FileProcessingStatus.PROCESSING ≠ FileProcessingStatus.COMPLETED
    ∧ (10 : ℚ) ≠ 100 := by
  refine ⟨?_, by decide, by norm_num⟩
  have h10 : max (0 : ℚ) (min 100 10) = 10 := by norm_num
  simp [process_uploaded_file, update_processing_status,
    Project.update_processing_progress, progress50Call, h10]
  norm_num

/-- Witness for `C6_success_path_never_completes` at the concrete record
`p0` with content `"x"`. -/
theorem C6_success_path_never_completes_witness :
    process_uploaded_file (some p0) (Except.ok "x") =
      (some { p0 with file_processing_status := FileProcessingStatus.PROCESSING
                      processing_progress := 10 }, false)
    ∧ FileProcessingStatus.PROCESSING ≠ FileProcessingStatus.COMPLETED
    ∧ (10 : ℚ) ≠ 100 :=
  C6_success_path_never_completes p0 "x"

/-- C7 (code bug): when the content fetch raises, the record is left in
`file_processing_status = processing` with progress 10 and its
`processing_error` untouched — it is never transitioned to `failed` and the
exception message is never recorded, because the handler
`_update_error_status` references `ProjectService` out of scope and its
`NameError` is swallowed (file_processing.py:167-184). -/
theorem C7_failure_path_never_marks_failed (p : Project) (msg : String) :
    process_uploaded_file (some p) (Except.error (PyExc.storageError msg)) =
      (some { p with file_processing_status := FileProcessingStatus.PROCESSING
                     processing_progress := 10 }, false)
    ∧ FileProcessingStatus.PROCESSING ≠ FileProcessingStatus.FAILED
    ∧ ({ p with file_processing_status := FileProcessingStatus.PROCESSING
                processing_progress := (10 : ℚ) } : Project).processing_error
        = p.processing_error := by
  refine ⟨?_, by decide, rfl⟩
  have h10 : max (0 : ℚ) (min 100 10) = 10 := by norm_num
  simp [process_uploaded_file, update_processing_status,
    Project.update_processing_progress, h10]
  norm_num

/-- Witness for `C7_failure_path_never_marks_failed` at the concrete record
`p0` with a storage error `"boom"`. -/
theorem C7_failure_path_never_marks_failed_witness :
    process_uploaded_file (some p0) (Except.error (PyExc.storageError "boom")) =
      (some { p0 with file_processing_status := FileProcessingStatus.PROCESSING
                      processing_progress := 10 }, false)
    ∧ FileProcessingStatus.PROCESSING ≠ FileProcessingStatus.FAILED
    ∧ ({ p0 with file_processing_status := FileProcessingStatus.PROCESSING
                 processing_progress := (10 : ℚ) } : Project).processing_error
        = p0.processing_error :=
  C7_failure_path_never_marks_failed p0 "boom"

/-! ## Claim C9: the analyzer -/

lemma splitBB_no_sep (s : List Char) (acc : List Char) (h : noBB s = true) :
    splitBB s acc = [acc.reverse ++ s] := by
  induction s generalizing acc with
  | nil => simp [splitBB]
  | cons c s' ih =>
      cases s' with
      | nil => simp [splitBB]
      | cons d r =>
          have hnb : ¬ (c = '\n' ∧ d = '\n') := by
            simp [noBB] at h
            tauto
          have htail : noBB (d :: r) = true := by
            simp [noBB] at h
            exact h.2
          rw [splitBB]
          rw [if_neg (by simpa using hnb)]
          rw [ih (c :: acc) htail]
          simp

lemma splitBB_sep (s t : List Char) (acc : List Char)
    (hnb : noBB s = true) (hlast : s.getLast? ≠ some '\n') :
    splitBB (s ++ '\n' :: '\n' :: t) acc = (acc.reverse ++ s) :: splitBB t [] := by
  induction s generalizing acc with
  | nil =>
      rw [List.nil_append, splitBB]
      rw [if_pos (by simp)]
      simp
  | cons c s' ih =>
      cases s' with
      | nil =>
          have hc : c ≠ '\n' := by
            intro hc
            exact hlast (by simp [hc])
          rw [List.cons_append, List.nil_append, splitBB]
          rw [if_neg (by simp [hc])]
          rw [splitBB]
          rw [if_pos (by simp)]
          simp
      | cons d r =>
          have hcd : ¬ (c = '\n' ∧ d = '\n') := by
            simp [noBB] at hnb
            tauto
          have htail : noBB (d :: r) = true := by
            simp [noBB] at hnb
            exact hnb.2
          have hlast' : (d :: r).getLast? ≠ some '\n' := by
            simpa [List.getLast?_cons_cons] using hlast
          rw [List.cons_append, splitBB]
          rw [if_neg (by simpa using hcd)]
          rw [ih (c :: acc) htail hlast']
          simp

lemma splitBB_interBB (segs : List (List Char)) (hne : segs ≠ [])
    (h : ∀ s ∈ segs, noBB s = true ∧ s.getLast? ≠ some '\n') :
    splitBB (interBB segs) [] = segs := by
  induction segs with
  | nil => exact absurd rfl hne
  | cons s rest ih =>
      cases rest with
      | nil =>
          have hs := h s (by simp)
          simp [interBB, splitBB_no_sep s [] hs.1]
      | cons s2 rest2 =>
          have hs := h s (by simp)
          rw [show interBB (s :: s2 :: rest2) = s ++ '\n' :: '\n' :: interBB (s2 :: rest2) from rfl]
          rw [splitBB_sep s (interBB (s2 :: rest2)) [] hs.1 hs.2]
          rw [ih (by simp) (fun x hx => h x (by simp [hx]))]
          simp

lemma interBB_ne_nil (s : List Char) (rest : List (List Char)) (hs : s ≠ []) :
    interBB (s :: rest) ≠ [] := by
  cases rest with
  | nil => simpa [interBB] using hs
  | cons s2 r2 => simp [interBB, hs]

/-- C9: the analyzer is a total function; on empty input every count is
zero, and on text made of exactly N blank-line-delimited segments — each
non-blank, free of blank lines and not ending in a newline — the paragraph
count is exactly N. -/
theorem C9_analyzer :
    (∀ ft, analyze_file_content [] ft =
      { word_count := 0, paragraph_count := 0, sentence_count := 0
        character_count := 0, chapter_count := 0 })
    ∧ (∀ (ft : Option SupportedFileType) (segs : List (List Char)),
        segs ≠ [] →
        (∀ s ∈ segs, noBB s = true ∧ pyStrip s ≠ [] ∧ s.getLast? ≠ some '\n') →
        (analyze_file_content (interBB segs) ft).paragraph_count = segs.length) := by
  constructor
  · intro ft
    simp [analyze_file_content]
  · intro ft segs hne h
    have hsplit : splitBB (interBB segs) [] = segs :=
      splitBB_interBB segs hne (fun s hs => ⟨(h s hs).1, (h s hs).2.2⟩)
    have hinter : interBB segs ≠ [] := by
      cases segs with
      | nil => exact absurd rfl hne
      | cons s rest =>
          have hs : s ≠ [] := by
            intro hnil
            have := (h s (by simp)).2.1
            simp [hnil, pyStrip] at this
          exact interBB_ne_nil s rest hs
    rw [analyze_file_content, if_neg hinter]
    simp only [hsplit]
    rw [List.countP_eq_length]
    intro s hs
    have := (h s hs).2.1
    simpa using this

/-- Witness for `C9_analyzer` on the concrete text
`"# Title\n\npara one\n\npara two."`, which has three blank-line-delimited
segments. -/
theorem C9_analyzer_witness :
    (analyze_file_content
        (interBB ["# Title".toList, "para one".toList, "para two.".toList])
        (some SupportedFileType.MD)).paragraph_count = 3 := by
  have h := C9_analyzer.2 (some SupportedFileType.MD)
    ["# Title".toList, "para one".toList, "para two.".toList]
    (by decide) (by decide)
  simpa using h

/-! ## Claim C1: the `ValidationResult` invariant of `validate_uploaded_file` -/

lemma basic_check_invalid_err (c : List Nat) (fn : String) :
    (basic_uploaded_file_check c fn).is_valid = false →
    (basic_uploaded_file_check c fn).error_message.isSome := by
  simp only [basic_uploaded_file_check]
  split_ifs <;> simp

lemma security_check_invalid_err (env : MagicEnv) (c : List Nat) (fn : String) :
    (security_check_content env c fn).is_valid = false →
    (security_check_content env c fn).error_message.isSome := by
  simp only [security_check_content]
  cases hm : env.sniff c <;> dsimp only <;> split_ifs <;> simp

lemma detect_invalid_err (env : MagicEnv) (c : List Nat) (fn : String)
    (exp : Option SupportedFileType) :
    (detect_file_type_from_content env c fn exp).is_valid = false →
    (detect_file_type_from_content env c fn exp).error_message.isSome := by
  simp only [detect_file_type_from_content]
  cases hdet : detectedTypes env c fn with
  | nil => simp
  | cons t rest =>
      dsimp only
      split
      · simp
      · split <;> simp

lemma detect_valid_ft (env : MagicEnv) (c : List Nat) (fn : String)
    (exp : Option SupportedFileType) :
    (detect_file_type_from_content env c fn exp).is_valid = true →
    (detect_file_type_from_content env c fn exp).file_type.isSome := by
  simp only [detect_file_type_from_content]
  cases hdet : detectedTypes env c fn with
  | nil => simp
  | cons t rest =>
      dsimp only
      split
      · simp
      · split <;> simp

lemma text_content_invalid_err (c : List Nat) (m : List (String × MVal))
    (w : List String) :
    (validate_text_content c m w).is_valid = false →
    (validate_text_content c m w).error_message.isSome := by
  simp only [validate_text_content]
  cases hu : utf8Decode c with
  | some cs =>
      dsimp only
      split_ifs <;> simp
  | none =>
      cases hg : gbkDecode c with
      | some cs => simp
      | none => simp

lemma docx_content_invalid_err (env : MagicEnv) (c : List Nat)
    (m : List (String × MVal)) (w : List String) :
    (validate_docx_content env c m w).is_valid = false →
    (validate_docx_content env c m w).error_message.isSome := by
  simp only [validate_docx_content]
  cases hz : env.parseZip c with
  | none => simp
  | some z =>
      dsimp only
      split_ifs <;> simp

lemma epub_content_invalid_err (env : MagicEnv) (c : List Nat)
    (m : List (String × MVal)) (w : List String) :
    (validate_epub_content env c m w).is_valid = false →
    (validate_epub_content env c m w).error_message.isSome := by
  simp only [validate_epub_content]
  cases hz : env.parseZip c with
  | none => simp
  | some z =>
      dsimp only
      split_ifs <;> try simp
      all_goals
        cases hr : zipRead z "mimetype" with
        | none => simp
        | some mb =>
            rcases hu : utf8Decode mb with _ | cs
            · simp [hu]
            · simp only [hu]
              simp

lemma content_bytes_invalid_err (env : MagicEnv) (c : List Nat)
    (oft : Option SupportedFileType) :
    (validate_file_content_bytes env c oft).is_valid = false →
    (validate_file_content_bytes env c oft).error_message.isSome := by
  unfold validate_file_content_bytes
  match oft with
  | some SupportedFileType.DOCX => exact docx_content_invalid_err env c _ _
  | some SupportedFileType.EPUB => exact epub_content_invalid_err env c _ _
  | some SupportedFileType.TXT => exact text_content_invalid_err c _ _
  | some SupportedFileType.MD => exact text_content_invalid_err c _ _
  | none => simp

/-- C1: the invariant of the result of `validate_uploaded_file` — a valid
result carries a detected type and no error message; an invalid result
carries an error message. -/
theorem C1_validation_result_invariant (env : MagicEnv) (c : List Nat)
    (fn : String) (exp : Option SupportedFileType) :
    ((validate_uploaded_file env c fn exp).is_valid = true →
      (validate_uploaded_file env c fn exp).file_type.isSome
      ∧ (validate_uploaded_file env c fn exp).error_message = none)
    ∧ ((validate_uploaded_file env c fn exp).is_valid = false →
      (validate_uploaded_file env c fn exp).error_message.isSome) := by
  simp only [validate_uploaded_file]
  split
  · simp
  · split
    · rename_i hb
      constructor
      · intro hv
        exact absurd hv (by simpa using hb)
      · intro _
        exact basic_check_invalid_err c fn (by simpa using hb)
    · split
      · rename_i hs
        constructor
        · intro hv
          exact absurd hv (by simpa using hs)
        · intro _
          exact security_check_invalid_err env c fn (by simpa using hs)
      · split
        · rename_i ht
          constructor
          · intro hv
            exact absurd hv (by simpa using ht)
          · intro _
            exact detect_invalid_err env c fn exp (by simpa using ht)
        · split
          · rename_i hc
            constructor
            · intro hv
              exact absurd hv (by simpa using hc)
            · intro _
              exact content_bytes_invalid_err env c _ (by simpa using hc)
          · rename_i ht _
            constructor
            · intro _
              refine ⟨?_, rfl⟩
              exact detect_valid_ft env c fn exp (by simpa using ht)
            · intro hv
              exact absurd hv (by simp)

/-! ## Claims C2/C3: classification ambiguity and tie-breaking -/

lemma addDetected_head (l : List SupportedFileType) (t : SupportedFileType)
    (h : l ≠ []) : (addDetected l t).head? = l.head? := by
  unfold addDetected
  split_ifs
  · rfl
  · cases l with
    | nil => exact absurd rfl h
    | cons a as => simp

lemma addDetected_ne_nil (l : List SupportedFileType) (t : SupportedFileType)
    (h : l ≠ []) : addDetected l t ≠ [] := by
  unfold addDetected
  split_ifs
  · exact h
  · simp

lemma addDetected_len (l : List SupportedFileType) (t : SupportedFileType) :
    l.length ≤ (addDetected l t).length := by
  unfold addDetected
  split_ifs <;> simp

lemma sigStep_head (header : List Nat) (t : SupportedFileType)
    (acc : List SupportedFileType) (h : acc ≠ []) :
    (sigStep header acc t).head? = acc.head? ∧ sigStep header acc t ≠ []
    ∧ acc.length ≤ (sigStep header acc t).length := by
  unfold sigStep
  generalize (SUPPORTED_TYPES t).signatures = sigs
  induction sigs generalizing acc with
  | nil => exact ⟨rfl, h, le_refl _⟩
  | cons sig rest ih =>
      rw [List.foldl_cons]
      by_cases hp : sig.isPrefixOf header
      · rw [if_pos hp]
        have h2 := ih (addDetected acc t) (addDetected_ne_nil acc t h)
        exact ⟨h2.1.trans (addDetected_head acc t h), h2.2.1,
          le_trans (addDetected_len acc t) h2.2.2⟩
      · rw [if_neg hp]
        exact ih acc h

lemma sigFold_props (ts : List SupportedFileType) (header : List Nat)
    (acc : List SupportedFileType) (h : acc ≠ []) :
    (List.foldl (sigStep header) acc ts).head? = acc.head?
    ∧ acc.length ≤ (List.foldl (sigStep header) acc ts).length := by
  induction ts generalizing acc with
  | nil => exact ⟨rfl, le_refl _⟩
  | cons t ts ih =>
      rw [List.foldl_cons]
      have hs := sigStep_head header t acc h
      have h2 := ih (sigStep header acc t) hs.2.1
      exact ⟨h2.1.trans hs.1, le_trans hs.2.2 h2.2⟩

/-- TXT's only signature is the empty byte string, which starts every
header, so the TXT step of the signature pass always appends TXT. -/
lemma sigStep_txt (header : List Nat) (acc : List SupportedFileType) :
    sigStep header acc SupportedFileType.TXT = addDetected acc SupportedFileType.TXT := by
  simp [sigStep, SUPPORTED_TYPES, List.isPrefixOf]

lemma sigDetect_cons (header : List Nat) (acc : List SupportedFileType) :
    sigDetect header acc =
      List.foldl (sigStep header)
        (sigStep header acc SupportedFileType.TXT)
        [SupportedFileType.MD, SupportedFileType.DOCX, SupportedFileType.EPUB] := by
  simp [sigDetect, typeOrder]

lemma sigDetect_props (header : List Nat) (acc : List SupportedFileType)
    (h : acc ≠ []) :
    (sigDetect header acc).head? = acc.head?
    ∧ acc.length ≤ (sigDetect header acc).length :=
  sigFold_props typeOrder header acc h

lemma detect_file_type_head (env : MagicEnv) (c : List Nat) (fn : String)
    (exp : Option SupportedFileType) :
    (detect_file_type_from_content env c fn exp).file_type =
      (detectedTypes env c fn).head? := by
  simp only [detect_file_type_from_content]
  cases hdet : detectedTypes env c fn with
  | nil => simp
  | cons t rest =>
      dsimp only
      split
      · simp
      · split <;> simp

lemma detect_valid_warning (env : MagicEnv) (c : List Nat) (fn : String)
    (exp : Option SupportedFileType)
    (hlen : 1 < (detectedTypes env c fn).length) :
    (detect_file_type_from_content env c fn exp).is_valid = true →
    multiTypeWarning (detectedTypes env c fn) ∈
      (detect_file_type_from_content env c fn exp).warnings := by
  simp only [detect_file_type_from_content]
  rcases hdet : detectedTypes env c fn with _ | ⟨t, rest⟩
  · simp
  · rw [hdet] at hlen
    dsimp only
    split
    · simp
    · split
      · simp
      · intro _
        simp [if_pos hlen]

/-- C2 (amended): when the extension, the sniffed MIME type and a magic-byte
signature all indicate kind K, the classifier places K first in the
candidate list — so K is the chosen authoritative kind — but the candidate
list always has at least two elements (TXT's empty signature matches every
buffer, `text/plain` is shared by TXT and MD, and DOCX and EPUB share the
ZIP signature), so the multiple-candidate warning is emitted whenever the
detection step succeeds, contrary to the claim's "exactly {K}". -/
theorem C2_all_signals_agree (K : SupportedFileType) (env : MagicEnv)
    (c : List Nat) (fn : String) (exp : Option SupportedFileType)
    (hext : strLower (pathSuffix fn) ∈ (SUPPORTED_TYPES K).extensions)
    (hmime : ∃ m, env.sniff c = some m ∧ m ∈ (SUPPORTED_TYPES K).mime_types)
    (hsig : ∃ sig ∈ (SUPPORTED_TYPES K).signatures, sig.isPrefixOf (c.take 1024)) :
    (detectedTypes env c fn).head? = some K
    ∧ 2 ≤ (detectedTypes env c fn).length
    ∧ ((detect_file_type_from_content env c fn exp).is_valid = true →
        (detect_file_type_from_content env c fn exp).file_type = some K
        ∧ multiTypeWarning (detectedTypes env c fn) ∈
            (detect_file_type_from_content env c fn exp).warnings) := by
  obtain ⟨m, hm, hmm⟩ := hmime
  have key : (detectedTypes env c fn).head? = some K
      ∧ 2 ≤ (detectedTypes env c fn).length := by
    unfold detectedTypes
    rw [hm]
    cases K with
    | TXT =>
        have he : strLower (pathSuffix fn) = ".txt" := by
          simpa [SUPPORTED_TYPES] using hext
        have hm2 : m = "text/plain" := by
          simpa [SUPPORTED_TYPES] using hmm
        rw [he, hm2]
        have hmd : mimeDetect (some "text/plain") (extDetect ".txt") =
            [SupportedFileType.TXT, SupportedFileType.MD] := by decide
        rw [hmd]
        have h := sigDetect_props (c.take 1024)
          [SupportedFileType.TXT, SupportedFileType.MD] (by simp)
        exact ⟨h.1, h.2⟩
    | MD =>
        have he : strLower (pathSuffix fn) = ".md" ∨ strLower (pathSuffix fn) = ".markdown" := by
          simpa [SUPPORTED_TYPES] using hext
        have hm2 : m = "text/markdown" ∨ m = "text/plain" := by
          simpa [SUPPORTED_TYPES] using hmm
        have hed : extDetect (strLower (pathSuffix fn)) = [SupportedFileType.MD] := by
          rcases he with he | he <;> rw [he] <;> decide
        rw [hed]
        rcases hm2 with hm2 | hm2 <;> rw [hm2]
        · have hmd : mimeDetect (some "text/markdown") [SupportedFileType.MD] =
              [SupportedFileType.MD] := by decide
          rw [hmd, sigDetect_cons, sigStep_txt]
          have had : addDetected [SupportedFileType.MD] SupportedFileType.TXT =
              [SupportedFileType.MD, SupportedFileType.TXT] := by decide
          rw [had]
          have h := sigFold_props
            [SupportedFileType.MD, SupportedFileType.DOCX, SupportedFileType.EPUB]
            (c.take 1024)
            [SupportedFileType.MD, SupportedFileType.TXT] (by simp)
          exact ⟨h.1, h.2⟩
        · have hmd : mimeDetect (some "text/plain") [SupportedFileType.MD] =
              [SupportedFileType.MD, SupportedFileType.TXT] := by decide
          rw [hmd]
          have h := sigDetect_props (c.take 1024)
            [SupportedFileType.MD, SupportedFileType.TXT] (by simp)
          exact ⟨h.1, h.2⟩
    | DOCX =>
        have he : strLower (pathSuffix fn) = ".docx" := by
          simpa [SUPPORTED_TYPES] using hext
        have hm2 : m =
            "application/vnd.openxmlformats-officedocument.wordprocessingml.document" := by
          simpa [SUPPORTED_TYPES] using hmm
        rw [he, hm2]
        have hmd : mimeDetect
            (some "application/vnd.openxmlformats-officedocument.wordprocessingml.document")
            (extDetect ".docx") = [SupportedFileType.DOCX] := by decide
        rw [hmd, sigDetect_cons, sigStep_txt]
        have had : addDetected [SupportedFileType.DOCX] SupportedFileType.TXT =
            [SupportedFileType.DOCX, SupportedFileType.TXT] := by decide
        rw [had]
        have h := sigFold_props
          [SupportedFileType.MD, SupportedFileType.DOCX, SupportedFileType.EPUB]
          (c.take 1024)
          [SupportedFileType.DOCX, SupportedFileType.TXT] (by simp)
        exact ⟨h.1, h.2⟩
    | EPUB =>
        have he : strLower (pathSuffix fn) = ".epub" := by
          simpa [SUPPORTED_TYPES] using hext
        have hm2 : m = "application/epub+zip" := by
          simpa [SUPPORTED_TYPES] using hmm
        rw [he, hm2]
        have hmd : mimeDetect (some "application/epub+zip") (extDetect ".epub") =
            [SupportedFileType.EPUB] := by decide
        rw [hmd, sigDetect_cons, sigStep_txt]
        have had : addDetected [SupportedFileType.EPUB] SupportedFileType.TXT =
            [SupportedFileType.EPUB, SupportedFileType.TXT] := by decide
        rw [had]
        have h := sigFold_props
          [SupportedFileType.MD, SupportedFileType.DOCX, SupportedFileType.EPUB]
          (c.take 1024)
          [SupportedFileType.EPUB, SupportedFileType.TXT] (by simp)
        exact ⟨h.1, h.2⟩
  refine ⟨key.1, key.2, fun hv => ⟨?_, ?_⟩⟩
  · rw [detect_file_type_head env c fn exp, key.1]
  · exact detect_valid_warning env c fn exp (lt_of_lt_of_le one_lt_two key.2) hv

/-- Witness for `C2_all_signals_agree`: kind MD, buffer `"# h"`, filename
`a.md`, Markdown MIME. -/
theorem C2_all_signals_agree_witness :
    (detectedTypes envMd [0x23, 0x20, 0x68] "a.md").head? = some SupportedFileType.MD
    ∧ 2 ≤ (detectedTypes envMd [0x23, 0x20, 0x68] "a.md").length
    ∧ ((detect_file_type_from_content envMd [0x23, 0x20, 0x68] "a.md" none).is_valid = true →
        (detect_file_type_from_content envMd [0x23, 0x20, 0x68] "a.md" none).file_type =
          some SupportedFileType.MD
        ∧ multiTypeWarning (detectedTypes envMd [0x23, 0x20, 0x68] "a.md") ∈
            (detect_file_type_from_content envMd [0x23, 0x20, 0x68] "a.md" none).warnings) :=
  C2_all_signals_agree SupportedFileType.MD envMd [0x23, 0x20, 0x68] "a.md" none
    (by decide)
    ⟨"text/markdown", rfl, by decide⟩
    ⟨[0x23], by decide, by decide⟩

/-- Counterexample to C2 as stated: the extension, the sniffed MIME type and
the magic bytes of this buffer all indicate DOCX, yet the candidate set is
[DOCX, TXT, EPUB] — not exactly {DOCX} — and the ambiguity warning is
emitted. -/
theorem C2_counterexample :
    strLower (pathSuffix "a.docx") ∈ (SUPPORTED_TYPES SupportedFileType.DOCX).extensions
    ∧ envDocx.sniff [0x50, 0x4B, 0x03, 0x04] =
        some "application/vnd.openxmlformats-officedocument.wordprocessingml.document"
    ∧ "application/vnd.openxmlformats-officedocument.wordprocessingml.document" ∈
        (SUPPORTED_TYPES SupportedFileType.DOCX).mime_types
    ∧ [0x50, 0x4B, 0x03, 0x04] ∈ (SUPPORTED_TYPES SupportedFileType.DOCX).signatures
    ∧ List.isPrefixOf [0x50, 0x4B, 0x03, 0x04] ([0x50, 0x4B, 0x03, 0x04].take 1024) = true
    ∧ detectedTypes envDocx [0x50, 0x4B, 0x03, 0x04] "a.docx" =
        [SupportedFileType.DOCX, SupportedFileType.TXT, SupportedFileType.EPUB]
    ∧ detectedTypes envDocx [0x50, 0x4B, 0x03, 0x04] "a.docx" ≠ [SupportedFileType.DOCX]
    ∧ (detect_file_type_from_content envDocx [0x50, 0x4B, 0x03, 0x04] "a.docx" none).warnings ≠
        [] := by
  decide

/-- C3 (amended): whenever the candidate list has more than one element and
`validate_uploaded_file` succeeds, the chosen authoritative kind is the
*first detected* candidate — detection order: extension pass, then MIME
pass, then signature pass, each scanning kinds in the order TXT, MD, DOCX,
EPUB — and the warning recording the full candidate set is in the result's
warnings. -/
theorem C3_tiebreak_first_detected (env : MagicEnv) (c : List Nat) (fn : String)
    (exp : Option SupportedFileType) :
    1 < (detectedTypes env c fn).length →
    (validate_uploaded_file env c fn exp).is_valid = true →
    (validate_uploaded_file env c fn exp).file_type = (detectedTypes env c fn).head?
    ∧ multiTypeWarning (detectedTypes env c fn) ∈
        (validate_uploaded_file env c fn exp).warnings := by
  intro hlen
  simp only [validate_uploaded_file]
  split
  · simp
  · split
    · rename_i hb
      intro hv
      exact absurd hv (by simpa using hb)
    · split
      · rename_i hs
        intro hv
        exact absurd hv (by simpa using hs)
      · split
        · rename_i ht
          intro hv
          exact absurd hv (by simpa using ht)
        · split
          · rename_i hcc
            intro hv
            exact absurd hv (by simpa using hcc)
          · rename_i ht _
            intro _
            constructor
            · simpa using detect_file_type_head env c fn exp
            · have hw := detect_valid_warning env c fn exp hlen (by simpa using ht)
              simp only [ValidationResult.warnings]
              exact List.mem_append.2 (Or.inl (List.mem_append.2 (Or.inr hw)))

/-- Witness for `C3_tiebreak_first_detected`: the Markdown buffer `"# x"`
uploaded as `b.md` with a `text/plain` sniff validates successfully with
candidates [MD, TXT]. -/
theorem C3_tiebreak_first_detected_witness :
    (validate_uploaded_file envPlain [0x23, 0x20, 0x78] "b.md" none).file_type =
      (detectedTypes envPlain [0x23, 0x20, 0x78] "b.md").head?
    ∧ multiTypeWarning (detectedTypes envPlain [0x23, 0x20, 0x78] "b.md") ∈
        (validate_uploaded_file envPlain [0x23, 0x20, 0x78] "b.md" none).warnings :=
  C3_tiebreak_first_detected envPlain [0x23, 0x20, 0x78] "b.md" none
    (by decide) (by decide)

/-- Counterexample to C3 as stated: for the buffer `"# hi"` named `x.docx`
with a `text/plain` sniff, the candidate set is [DOCX, TXT, MD]; the first
candidate in the spec's enumeration order {TXT, MD, DOCX, EPUB} is TXT, but
the code chooses DOCX (insertion order of the detection passes: the
extension pass ran first). -/
theorem C3_counterexample :
    detectedTypes envPlain [0x23, 0x20, 0x68, 0x69] "x.docx" =
      [SupportedFileType.DOCX, SupportedFileType.TXT, SupportedFileType.MD]
    ∧ specEnumFirst [SupportedFileType.DOCX, SupportedFileType.TXT, SupportedFileType.MD] =
        some SupportedFileType.TXT
    ∧ (validate_uploaded_file envPlain [0x23, 0x20, 0x68, 0x69] "x.docx" none).file_type =
        some SupportedFileType.DOCX
    ∧ (validate_uploaded_file envPlain [0x23, 0x20, 0x68, 0x69] "x.docx" none).file_type ≠
        specEnumFirst (detectedTypes envPlain [0x23, 0x20, 0x68, 0x69] "x.docx") := by
  decide

/-- Witness for `C1_validation_result_invariant`: a plain-text upload that
validates successfully. -/
theorem C1_validation_result_invariant_witness :
    (validate_uploaded_file envPlain [0x68, 0x69] "a.txt" none).file_type.isSome
    ∧ (validate_uploaded_file envPlain [0x68, 0x69] "a.txt" none).error_message = none :=
  (C1_validation_result_invariant envPlain [0x68, 0x69] "a.txt" none).1 (by decide)

/-! ## Claim C4: DOCX/EPUB container validation -/

/-- C4 (amended): DOCX/EPUB content validation fails with a named error when
the ZIP container cannot be parsed or a required entry is missing, succeeds
when the required entries are present, and — when the EPUB `mimetype` entry
is UTF-8-decodable — emits only a warning (not a failure) when its
*whitespace-stripped* decoded content differs from `application/epub+zip`. -/
theorem C4_container_validation (env : MagicEnv) (c : List Nat) :
    (env.parseZip c = none →
      (validate_file_content_bytes env c (some SupportedFileType.DOCX)).is_valid = false
      ∧ (validate_file_content_bytes env c (some SupportedFileType.DOCX)).error_message =
          some "无效的DOCX文件，无法解析ZIP格式"
      ∧ (validate_file_content_bytes env c (some SupportedFileType.EPUB)).is_valid = false
      ∧ (validate_file_content_bytes env c (some SupportedFileType.EPUB)).error_message =
          some "无效的EPUB文件，无法解析ZIP格式")
    ∧ (∀ z, env.parseZip c = some z →
        "[Content_Types].xml" ∉ zipNames z →
        (validate_file_content_bytes env c (some SupportedFileType.DOCX)).is_valid = false
        ∧ (validate_file_content_bytes env c (some SupportedFileType.DOCX)).error_message =
            some "无效的DOCX文件，缺少必要文件: [Content_Types].xml")
    ∧ (∀ z, env.parseZip c = some z →
        "[Content_Types].xml" ∈ zipNames z →
        "word/document.xml" ∉ zipNames z →
        (validate_file_content_bytes env c (some SupportedFileType.DOCX)).is_valid = false
        ∧ (validate_file_content_bytes env c (some SupportedFileType.DOCX)).error_message =
            some "无效的DOCX文件，缺少必要文件: word/document.xml")
    ∧ (∀ z, env.parseZip c = some z →
        "[Content_Types].xml" ∈ zipNames z →
        "word/document.xml" ∈ zipNames z →
        (validate_file_content_bytes env c (some SupportedFileType.DOCX)).is_valid = true)
    ∧ (∀ z, env.parseZip c = some z →
        "mimetype" ∉ zipNames z →
        (validate_file_content_bytes env c (some SupportedFileType.EPUB)).is_valid = false
        ∧ (validate_file_content_bytes env c (some SupportedFileType.EPUB)).error_message =
            some "无效的EPUB文件，缺少必要文件: mimetype")
    ∧ (∀ z, env.parseZip c = some z →
        "mimetype" ∈ zipNames z →
        "META-INF/container.xml" ∉ zipNames z →
        (validate_file_content_bytes env c (some SupportedFileType.EPUB)).is_valid = false
        ∧ (validate_file_content_bytes env c (some SupportedFileType.EPUB)).error_message =
            some "无效的EPUB文件，缺少必要文件: META-INF/container.xml")
    ∧ (∀ z mb cs, env.parseZip c = some z →
        "mimetype" ∈ zipNames z →
        "META-INF/container.xml" ∈ zipNames z →
        zipRead z "mimetype" = some mb →
        utf8Decode mb = some cs →
        (validate_file_content_bytes env c (some SupportedFileType.EPUB)).is_valid = true
        ∧ (String.mk (pyStrip cs) ≠ "application/epub+zip" →
            ("EPUB mimetype异常: " ++ String.mk (pyStrip cs)) ∈
              (validate_file_content_bytes env c (some SupportedFileType.EPUB)).warnings)) := by
  refine ⟨?_, ?_, ?_, ?_, ?_, ?_, ?_⟩
  · intro hz
    refine ⟨?_, ?_, ?_, ?_⟩ <;>
      simp [validate_file_content_bytes, validate_docx_content, validate_epub_content, hz]
  · intro z hz hct
    constructor <;> simp [validate_file_content_bytes, validate_docx_content, hz, hct]
  · intro z hz hct hwd
    constructor <;> simp [validate_file_content_bytes, validate_docx_content, hz, hct, hwd]
  · intro z hz hct hwd
    simp [validate_file_content_bytes, validate_docx_content, hz, hct, hwd]
  · intro z hz hmt
    constructor <;> simp [validate_file_content_bytes, validate_epub_content, hz, hmt]
  · intro z hz hmt hci
    constructor <;> simp [validate_file_content_bytes, validate_epub_content, hz, hmt, hci]
  · intro z mb cs hz hmt hci hr hu
    constructor
    · simp [validate_file_content_bytes, validate_epub_content, hz, hmt, hci, hr, hu]
    · intro hne
      simp [validate_file_content_bytes, validate_epub_content, hz, hmt, hci, hr, hu, hne]

/-- Witness for `C4_container_validation`: a ZIP missing `word/document.xml`
fails DOCX validation naming that file, and an EPUB whose `mimetype` entry
reads `application/xhtml` validates with the mimetype warning. -/
theorem C4_container_validation_witness :
    ((validate_file_content_bytes envDocxMiss [0] (some SupportedFileType.DOCX)).is_valid = false
      ∧ (validate_file_content_bytes envDocxMiss [0] (some SupportedFileType.DOCX)).error_message =
          some "无效的DOCX文件，缺少必要文件: word/document.xml")
    ∧ ("EPUB mimetype异常: application/xhtml" ∈
        (validate_file_content_bytes envEpubWarn [0] (some SupportedFileType.EPUB)).warnings) := by
  constructor
  · exact (C4_container_validation envDocxMiss [0]).2.2.1 zDocxMiss rfl (by decide) (by decide)
  · have h := (C4_container_validation envEpubWarn [0]).2.2.2.2.2.2
      zEpubWarn ("application/xhtml".toList.map Char.toNat) "application/xhtml".toList
      rfl (by decide) (by decide) (by decide) (by decide)
    exact (by decide : ("EPUB mimetype异常: " ++ String.mk (pyStrip "application/xhtml".toList)) =
      "EPUB mimetype异常: application/xhtml") ▸ h.2 (by decide)

/-- Counterexample to C4 as stated: this EPUB's `mimetype` entry content is
`"application/epub+zip\n"`, which differs from `"application/epub+zip"`, yet
no warning is recorded (the code strips whitespace before comparing), so
"content differs ⟹ warning" fails. -/
theorem C4_counterexample :
    zipRead zEpubNL "mimetype" = some ("application/epub+zip\n".toList.map Char.toNat)
    ∧ utf8Decode ("application/epub+zip\n".toList.map Char.toNat) =
        some "application/epub+zip\n".toList
    ∧ ("application/epub+zip\n" : String) ≠ "application/epub+zip"
    ∧ (validate_file_content_bytes envEpubNL [0] (some SupportedFileType.EPUB)).is_valid = true
    ∧ (validate_file_content_bytes envEpubNL [0] (some SupportedFileType.EPUB)).warnings = [] := by
  decide

/-! ## Claim C5: TXT/MD text validation -/

/-- C5 (amended): for content classified as TXT or MD — if the bytes decode
as UTF-8 the result is valid, with the possible-binary-content warning
recorded exactly when the decoded text contains NUL; if UTF-8 fails but GBK
succeeds the result is valid with the GBK warning and *no* NUL check; if
both fail the result is invalid with the cannot-decode error. -/
theorem C5_text_validation (env : MagicEnv) (c : List Nat) (ft : SupportedFileType)
    (hft : ft = SupportedFileType.TXT ∨ ft = SupportedFileType.MD) :
    (∀ cs, utf8Decode c = some cs →
      (validate_file_content_bytes env c (some ft)).is_valid = true
      ∧ (nulChar ∈ cs ↔
          "文件可能包含二进制内容" ∈ (validate_file_content_bytes env c (some ft)).warnings))
    ∧ (utf8Decode c = none → ∀ cs, gbkDecode c = some cs →
        (validate_file_content_bytes env c (some ft)).is_valid = true
        ∧ "文件使用了GBK编码" ∈ (validate_file_content_bytes env c (some ft)).warnings
        ∧ "文件可能包含二进制内容" ∉ (validate_file_content_bytes env c (some ft)).warnings)
    ∧ (utf8Decode c = none → gbkDecode c = none →
        (validate_file_content_bytes env c (some ft)).is_valid = false
        ∧ (validate_file_content_bytes env c (some ft)).error_message =
            some "无法解码文件内容，可能不是有效的文本文件") := by
  have hdisp : validate_file_content_bytes env c (some ft) =
      validate_text_content c [("file_hash", MVal.s (env.sha256hex c))] [] := by
    rcases hft with h | h <;> subst h <;> rfl
  rw [hdisp]
  refine ⟨?_, ?_, ?_⟩
  · intro cs hu
    by_cases hn : nulChar ∈ cs
    · simp [validate_text_content, hu, hn]
    · simp [validate_text_content, hu, hn]
  · intro hu cs hg
    simp [validate_text_content, hu, hg]
  · intro hu hg
    simp [validate_text_content, hu, hg]

/-- Witness for `C5_text_validation`: `"hi"` decodes as UTF-8 without NUL;
the GBK-only byte pair `0xB0 0xA1` takes the fallback branch with the GBK
warning and no binary warning. -/
theorem C5_text_validation_witness :
    ((validate_file_content_bytes envPlain [0x68, 0x69] (some SupportedFileType.TXT)).is_valid = true
      ∧ (nulChar ∈ ['h', 'i'] ↔
          "文件可能包含二进制内容" ∈
            (validate_file_content_bytes envPlain [0x68, 0x69] (some SupportedFileType.TXT)).warnings))
    ∧ ((validate_file_content_bytes envPlain [0xB0, 0xA1] (some SupportedFileType.MD)).is_valid = true
      ∧ "文件使用了GBK编码" ∈
          (validate_file_content_bytes envPlain [0xB0, 0xA1] (some SupportedFileType.MD)).warnings
      ∧ "文件可能包含二进制内容" ∉
          (validate_file_content_bytes envPlain [0xB0, 0xA1] (some SupportedFileType.MD)).warnings) :=
  ⟨(C5_text_validation envPlain [0x68, 0x69] SupportedFileType.TXT (Or.inl rfl)).1
      ['h', 'i'] (by decide),
   (C5_text_validation envPlain [0xB0, 0xA1] SupportedFileType.MD (Or.inr rfl)).2.1
      (by decide) [Char.ofNat 176289] (by decide)⟩

/-- Counterexample to C5 as stated: the bytes `D6 D0 00` fail UTF-8, decode
under GBK to a text containing NUL, and validate successfully with only the
GBK warning — the claimed possible-binary-content warning is absent because
the NUL check runs only in the UTF-8 branch. -/
theorem C5_counterexample :
    utf8Decode [0xD6, 0xD0, 0x00] = none
    ∧ gbkDecode [0xD6, 0xD0, 0x00] = some [Char.ofNat 186064, nulChar]
    ∧ nulChar ∈ [Char.ofNat 186064, nulChar]
    ∧ (validate_file_content_bytes envPlain [0xD6, 0xD0, 0x00]
        (some SupportedFileType.TXT)).is_valid = true
    ∧ (validate_file_content_bytes envPlain [0xD6, 0xD0, 0x00]
        (some SupportedFileType.TXT)).warnings = ["文件使用了GBK编码"]
    ∧ "文件可能包含二进制内容" ∉
        (validate_file_content_bytes envPlain [0xD6, 0xD0, 0x00]
          (some SupportedFileType.TXT)).warnings := by
  decide

end Aicon
